import Mathlib

/-!
Shallow embedding of the derived-measurement layer of the Majorana
repository (`customised_instruments.py` and `reload_settings.py`).

Real-valued instrument readings are modelled as rationals (the formulas in
question are pure field arithmetic), the configuration store as a two-level
partial map from section names and field names to string values, and
Python exceptions as `Except`/`Option` results.
-/

namespace Majorana

/-- Raw state of an SR830 lock-in amplifier, restricted to the qcodes
parameters the repository reads: the in-phase component `X`, the magnitude
`R`, the raw excitation `amplitude`, the channel-1 display setting
`ch1_display` and the channel-1 data buffer `ch1_databuffer`. -/
structure LockinState where
  X : ℚ
  R : ℚ
  amplitude : ℚ
  ch1_display : String
  ch1_databuffer : List ℚ
  deriving DecidableEq

/-- A qcodes `VoltageDivider`: a scaling wrapper around an upstream voltage
parameter `v1` with a mutable `division_value` (ratio raw/effective). -/
structure VoltageDivider where
  v1 : ℚ
  division_value : ℚ
  deriving DecidableEq

/-- `VoltageDivider.get`: the upstream value divided by `division_value`. -/
def VoltageDivider.get (d : VoltageDivider) : ℚ :=
  d.v1 / d.division_value

/-- State of an `SR830_T3` (`customised_instruments.py`): the underlying
lock-in readings, the I/V conversion gain `ivgain`, the private `__acf`
field (here `acf`), and the `division_value` of the `amplitude_true`
`VoltageDivider` parameter, whose upstream `v1` aliases the lock-in's
`amplitude` parameter. -/
structure SR830_T3 where
  lockin : LockinState
  ivgain : ℚ
  acf : ℚ
  amplitude_true_division : ℚ
  deriving DecidableEq

/-- The `acfactor` property getter: `return self.__acf`. -/
def SR830_T3.acfactor (s : SR830_T3) : ℚ := s.acf

/-- Reading the `amplitude_true` parameter: the `VoltageDivider` get,
`self.amplitude` divided by the current `division_value`. -/
def SR830_T3.amplitude_true (s : SR830_T3) : ℚ :=
  s.lockin.amplitude / s.amplitude_true_division

/-- Writing `value` to the `amplitude_true` parameter: the `VoltageDivider`
set, which writes `value * division_value` to the upstream `amplitude`. -/
def SR830_T3.amplitude_true_set (s : SR830_T3) (value : ℚ) : SR830_T3 :=
  { s with lockin := { s.lockin with amplitude := value * s.amplitude_true_division } }

/-- Effect of `SR830_T3.__init__` on the modelled fields: `self.__acf = 1`,
and the `amplitude_true` divider is created with
`division_value=self.acfactor`, i.e. `1` at that point. -/
def SR830_T3.init (lockin : LockinState) (ivgain : ℚ) : SR830_T3 :=
  { lockin := lockin, ivgain := ivgain, acf := 1, amplitude_true_division := 1 }

/-- The `acfactor` property setter: sets `self.__acf` and
`self.amplitude_true.division_value` to the new value together. -/
def SR830_T3.acfactor_set (s : SR830_T3) (acfactor : ℚ) : SR830_T3 :=
  { s with acf := acfactor, amplitude_true_division := acfactor }

/-- `SR830_T3._get_conductance` (`customised_instruments.py` lines 129-138):
`resistance_quantum = 25.8125e3`; `i = self.R() / self.ivgain`;
`v_sample = self.amplitude_true()`; returns `(i/v_sample)*resistance_quantum`.
Note that it reads the magnitude parameter `R`, not the in-phase `X`. -/
def SR830_T3._get_conductance (s : SR830_T3) : ℚ :=
  let resistance_quantum : ℚ := 25.8125e3
  let i := s.lockin.R / s.ivgain
  let v_sample := s.amplitude_true
  (i / v_sample) * resistance_quantum

/-- `SR830_T3._get_resistance` (`customised_instruments.py` lines 140-148):
`i = self.R() / self.ivgain`; `v_sample = self.amplitude_true()`;
returns `v_sample/i`. -/
def SR830_T3._get_resistance (s : SR830_T3) : ℚ :=
  let i := s.lockin.R / s.ivgain
  let v_sample := s.amplitude_true
  v_sample / i

/-- `ConductanceBuffer.get` (`customised_instruments.py` lines 71-84):
raises `ValueError` when channel 1 is not displaying `X`; otherwise
returns `xarray/iv_conv/ac_excitation*resistance_quantum` element-wise,
with `resistance_quantum = 25.818e3`, `iv_conv = instrument.ivgain` and
`ac_excitation = instrument.amplitude_true()`. -/
def ConductanceBuffer.get (s : SR830_T3) : Except String (List ℚ) :=
  if s.lockin.ch1_display ≠ "X" then
    Except.error "Can not return conductance since X is not being measured on channel 1."
  else
    let resistance_quantum : ℚ := 25.818e3
    let xarray := s.lockin.ch1_databuffer
    let iv_conv := s.ivgain
    let ac_excitation := s.amplitude_true
    Except.ok (xarray.map (fun x => x / iv_conv / ac_excitation * resistance_quantum))

/-- `get_conductance` (`reload_settings.py` lines 217-225), the closure-based
conductance: `resistance_quantum = 25.818e3`; `i = lockin.X() / iv_conv`;
`v_sample = ac_excitation()`; returns `(i/v_sample)*resistance_quantum`. -/
def get_conductance (lockin : LockinState) (ac_excitation : VoltageDivider)
    (iv_conv : ℚ) : ℚ :=
  let resistance_quantum : ℚ := 25.818e3
  let i := lockin.X / iv_conv
  let v_sample := ac_excitation.get
  (i / v_sample) * resistance_quantum

/-- A `ConfigParser` section: a partial map from field names to string
values. -/
def ConfigSection : Type := String → Option String

/-- The section mapping held by a `ConfigParser`: a partial map from
section names to sections. -/
def Config : Type := String → Option ConfigSection

/-- Look up `section/field` in a section mapping (`self._cfg[section][field]`);
`none` models the `KeyError` raised when the section or field is absent. -/
def configLookup (c : Config) (sec field : String) : Option String :=
  match c sec with
  | none => none
  | some s => s field

/-- State of a `ConfigFile` (`reload_settings.py` lines 15-66): the
in-memory `ConfigParser` mapping `cfg` and the (parsed) content `file` of
the backing file on disk. -/
structure ConfigFile where
  cfg : Config
  file : Config

/-- `ConfigFile.get` for a given field (`reload_settings.py` lines 35-53):
reads the in-memory mapping only. -/
def ConfigFile.get (st : ConfigFile) (sec field : String) : Option String :=
  configLookup st.cfg sec field

/-- `ConfigFile.set` (`reload_settings.py` lines 55-66):
`self._cfg[section][field] = value` (a `KeyError`, modelled as `none`, when
the section is absent) followed by writing the entire parser state to the
backing file. -/
def ConfigFile.set (st : ConfigFile) (sec field value : String) :
    Option ConfigFile :=
  match st.cfg sec with
  | none => none
  | some s =>
      let s2 : ConfigSection := fun f => if f = field then some value else s f
      let cfg2 : Config := fun ss => if ss = sec then some s2 else st.cfg ss
      some { cfg := cfg2, file := cfg2 }

/-- Merge one file section into an existing in-memory section, as
`ConfigParser.read` does: options present in the file overwrite, options
absent from the file are kept. -/
def mergeSection (mem file : ConfigSection) : ConfigSection :=
  fun f =>
    match file f with
    | some v => some v
    | none => mem f

/-- Merge a parsed file into the in-memory mapping, as `ConfigParser.read`
does on an already-populated parser: file sections are merged into existing
sections of the same name, new sections are added, and in-memory sections
absent from the file are kept. -/
def mergeConfig (mem file : Config) : Config :=
  fun sec =>
    match file sec, mem sec with
    | some fs, some ms => some (mergeSection ms fs)
    | some fs, none => some fs
    | none, some ms => some ms
    | none, none => none

/-- `ConfigFile._load` (`reload_settings.py` lines 29-30):
`self._cfg.read(self._filename)` on the existing parser, i.e. a merge of
the file content into the in-memory mapping. -/
def ConfigFile._load (st : ConfigFile) : ConfigFile :=
  { st with cfg := mergeConfig st.cfg st.file }

/-- `ConfigFile.reload` (`reload_settings.py` lines 32-33): `self._load()`. -/
def ConfigFile.reload (st : ConfigFile) : ConfigFile :=
  st._load

/-- A qcodes `Numbers(min_value, max_value)` validator. -/
structure Numbers where
  min_value : ℚ
  max_value : ℚ
  deriving DecidableEq

/-- A plain qdac channel parameter, as far as `set_ranges` observes it:
its currently installed numeric validator (if any). -/
structure PlainChannel where
  validator : Option Numbers
  deriving DecidableEq

/-- A `VoltageDivider`-wrapped channel as `set_ranges` observes it: the
upstream (pre-division) parameter `v1` and the division ratio. -/
structure DividerChannel where
  v1 : PlainChannel
  division_value : ℚ
  deriving DecidableEq

/-- An entry of the `QDAC` channel dictionary passed to `set_ranges`:
either a raw channel parameter or a `VoltageDivider` around one. -/
inductive QdacChannel where
  | plain (p : PlainChannel)
  | divider (d : DividerChannel)
  deriving DecidableEq

/-- Split a character list at every occurrence of `sep`, keeping empty
groups, as Python's `str.split(sep)` with an explicit single-character
separator does (`"".split(" ") == [""]`, `"a  b".split(" ") == ["a","","b"]`). -/
def splitChar (sep : Char) : List Char → List (List Char)
  | [] => [[]]
  | c :: cs =>
      match splitChar sep cs, decide (c = sep) with
      | r, true => [] :: r
      | [], false => [[c]]
      | g :: gs, false => (c :: g) :: gs

/-- Python `str.split` with a single-character separator, on strings. -/
def pySplit (s : String) (sep : Char) : List String :=
  (splitChar sep s.data).map List.asString

/-- Read a list of decimal digit characters as a natural number; `none` on
any non-digit. The empty list reads as `0` (callers guard emptiness). -/
def digitsToNat (cs : List Char) : Option ℕ :=
  cs.foldl
    (fun acc c =>
      match acc, decide (c.isDigit) with
      | some n, true => some (10 * n + (c.toNat - 48))
      | _, _ => none)
    (some 0)

/-- Decimal scan behind `pyFloat`: an optional sign followed by a plain
decimal literal (integer part, optional decimal point, fraction part)
yields `(negative?, integer digits, fraction digits, fraction length)`;
`none` on anything else. -/
def pyFloatParts (s : String) : Option (Bool × ℕ × ℕ × ℕ) :=
  let signAndBody : Bool × List Char :=
    match s.data with
    | '-' :: cs => (true, cs)
    | '+' :: cs => (false, cs)
    | cs => (false, cs)
  match splitChar '.' signAndBody.2 with
  | [ip] =>
      match ip, digitsToNat ip with
      | [], _ => none
      | _, some n => some (signAndBody.1, n, 0, 0)
      | _, none => none
  | [ip, fp] =>
      match ip, fp, digitsToNat ip, digitsToNat fp with
      | [], [], _, _ => none
      | _, _, some n, some m => some (signAndBody.1, n, m, fp.length)
      | _, _, _, _ => none
  | _ => none

/-- Partial model of the Python builtin `float` as used by `set_ranges` on
range tokens: an optional sign followed by a plain decimal literal.
`none` models the `ValueError` raised on anything else; exponent forms and
the like are not needed by the embedded call sites. -/
def pyFloat (s : String) : Option ℚ :=
  (pyFloatParts s).map
    (fun r => (if r.1 then (-1 : ℚ) else 1) * ((r.2.1 : ℚ) + (r.2.2.1 : ℚ) / 10 ^ r.2.2.2))

/-- The body of the `set_ranges` loop (`reload_settings.py` lines 283-301)
for a single channel: a missing entry in the `Channel ranges` section is
skipped (`KeyError` → `continue`); a range string that does not split into
exactly two tokens raises `ValueError`; a token `float()` cannot parse
raises `ValueError`; otherwise a `Numbers(rangemin, rangemax)` validator is
installed on `channel.v1` for a `VoltageDivider` and on the channel itself
otherwise. -/
def setRangesChannel (ranges : String → Option String) (chan_id : String)
    (channel : QdacChannel) : Except String QdacChannel :=
  match ranges chan_id with
  | none => Except.ok channel
  | some chan_range =>
      match pySplit chan_range ' ' with
      | [mn, mx] =>
          match pyFloat mn, pyFloat mx with
          | some rangemin, some rangemax =>
              match channel with
              | QdacChannel.divider d =>
                  Except.ok (QdacChannel.divider
                    { d with v1 := { d.v1 with validator := some ⟨rangemin, rangemax⟩ } })
              | QdacChannel.plain p =>
                  Except.ok (QdacChannel.plain
                    { p with validator := some ⟨rangemin, rangemax⟩ })
          | _, _ => Except.error "could not convert string to float"
      | _ => Except.error ("Expected: min max. Got " ++ chan_range)

/-- `set_ranges` (`reload_settings.py` lines 273-303): iterate over the
channel dictionary, applying `setRangesChannel` to each entry; the first
raised error aborts the call. -/
def set_ranges (ranges : String → Option String)
    (qdac_channel_dictionary : List (String × QdacChannel)) :
    Except String (List (String × QdacChannel)) :=
  qdac_channel_dictionary.mapM
    (fun p => (setRangesChannel ranges p.1 p.2).map (fun c => (p.1, c)))

/-- `Decadac_T3.get_cutters` (`customised_instruments.py` lines 262-270):
when the left and right cutter voltages differ by more than `0.05` it
prints an error message and falls off the end (returning `None`); otherwise
it returns the left cutter voltage. No exception is raised in either case.
The second component collects the printed messages. -/
def Decadac_T3.get_cutters (vleft vright : ℚ) : Option ℚ × List String :=
  if |vleft - vright| > 0.05 then
    (none, ["Error! Left and right cutter are not the same!"])
  else
    (some vleft, [])

/-- The channels inspected by `check_unused_qdac_channels`
(`reload_settings.py` line 145):
`[el for i, el in enumerate(range(1,48)) if el not in used_channels()]`. -/
def inspected_channels (used : List ℕ) : List ℕ :=
  (List.range' 1 47).filter (fun el => el ∉ used)

/-- `check_unused_qdac_channels` (`reload_settings.py` lines 143-148):
for each inspected channel, read its latest voltage and warn when it is
strictly greater than `0.0`. The returned list holds the channels warned
about, given the map `get_latest` from channel number to latest voltage. -/
def check_unused_qdac_channels (used : List ℕ) (get_latest : ℕ → ℚ) :
    List ℕ :=
  (inspected_channels used).filter (fun ch => get_latest ch > 0)

/-- A concrete lock-in state with channel 1 displaying `X` and unit
readings, used to instantiate the theorems below. -/
def lockinX : LockinState :=
  { X := 1, R := 1, amplitude := 1, ch1_display := "X", ch1_databuffer := [1] }

/-- A concrete `SR830_T3` around `lockinX` with unit gain and divider. -/
def sX : SR830_T3 :=
  { lockin := lockinX, ivgain := 1, acf := 1, amplitude_true_division := 1 }

/-- A concrete lock-in state whose channel 1 is displaying `Y`, not `X`. -/
def lockinY : LockinState :=
  { X := 1, R := 1, amplitude := 1, ch1_display := "Y", ch1_databuffer := [1] }

/-- A concrete `SR830_T3` around `lockinY`. -/
def sY : SR830_T3 :=
  { lockin := lockinY, ivgain := 1, acf := 1, amplitude_true_division := 1 }

/-- A concrete lock-in state whose in-phase reading `X = 1` differs from
its magnitude reading `R = 2`. -/
def lockinR2 : LockinState :=
  { X := 1, R := 2, amplitude := 1, ch1_display := "X", ch1_databuffer := [] }

/-- A concrete `SR830_T3` around `lockinR2`. -/
def sR2 : SR830_T3 :=
  { lockin := lockinR2, ivgain := 1, acf := 1, amplitude_true_division := 1 }

/-- The lock-in state of the spec's worked example: `X = 1e-6` and a raw
amplitude of `1e-3`. -/
def lockin4 : LockinState :=
  { X := 1e-6, R := 0, amplitude := 1e-3, ch1_display := "X", ch1_databuffer := [] }

/-- A concrete `ConfigFile` whose memory and backing file both hold a
single empty section `A`. -/
def st0 : ConfigFile :=
  { cfg := fun sec => if sec = "A" then some (fun _ => none) else none,
    file := fun _ => none }

/-- A concrete section mapping holding `A/x = 1`. -/
def cfgA : Config :=
  fun sec => if sec = "A" then some (fun f => if f = "x" then some "1" else none) else none

/-- The section mapping of an empty backing file. -/
def emptyConfig : Config := fun _ => none

/-- A concrete `Channel ranges` section: channel `2` has the malformed
range `"1.0"` and channel `3` the well-formed range `"-1.0 1.0"`. -/
def ranges0 : String → Option String :=
  fun chan_id =>
    if chan_id = "2" then some "1.0"
    else if chan_id = "3" then some "-1.0 1.0"
    else none

/-- A concrete plain channel with no validator installed. -/
def plain0 : QdacChannel := QdacChannel.plain { validator := none }

/-- A concrete `VoltageDivider` channel with no validator installed
upstream. -/
def div0 : DividerChannel := { v1 := { validator := none }, division_value := 10 }

/-- Helper: a configured range string that does not split into exactly two
space-separated tokens makes `setRangesChannel` raise. -/
theorem setRangesChannel_malformed {ranges : String → Option String}
    {chan_id s : String} (ch : QdacChannel) (hr : ranges chan_id = some s)
    (hl : (pySplit s ' ').length ≠ 2) :
    ∃ msg, setRangesChannel ranges chan_id ch = Except.error msg := by
  simp only [setRangesChannel, hr]
  rcases hsp : pySplit s ' ' with _ | ⟨a, _ | ⟨b, _ | ⟨c, tl⟩⟩⟩
  · exact ⟨_, rfl⟩
  · exact ⟨_, rfl⟩
  · rw [hsp] at hl; simp at hl
  · exact ⟨_, rfl⟩

/-- Helper: an error raised for any channel of the dictionary aborts the
whole `set_ranges` call with an error. -/
theorem set_ranges_error_of_mem {ranges : String → Option String}
    {chans : List (String × QdacChannel)} {chan_id : String}
    {ch : QdacChannel} {msg : String}
    (hmem : (chan_id, ch) ∈ chans)
    (herr : setRangesChannel ranges chan_id ch = Except.error msg) :
    ∃ m, set_ranges ranges chans = Except.error m := by
  induction chans with
  | nil => cases hmem
  | cons p rest ih =>
      obtain ⟨pid, pch⟩ := p
      rw [set_ranges, List.mapM_cons]
      rcases List.mem_cons.mp hmem with hp | hrest
      · injection hp with h1 h2
        subst h1; subst h2
        rw [herr]
        exact ⟨_, rfl⟩
      · cases hsp : setRangesChannel ranges pid pch with
        | error e => exact ⟨_, rfl⟩
        | ok c =>
            obtain ⟨m, hm⟩ := ih hrest
            rw [set_ranges] at hm
            rw [hm]
            exact ⟨_, rfl⟩

/-- Helper: when no channel of the dictionary has a configured range,
`set_ranges` returns the dictionary unchanged. -/
theorem set_ranges_noop {ranges : String → Option String}
    {chans : List (String × QdacChannel)}
    (h : ∀ p ∈ chans, ranges p.1 = none) :
    set_ranges ranges chans = Except.ok chans := by
  induction chans with
  | nil => rfl
  | cons p rest ih =>
      rw [set_ranges, List.mapM_cons]
      have hp : setRangesChannel ranges p.1 p.2 = Except.ok p.2 := by
        rw [setRangesChannel, h p (List.mem_cons_self p rest)]
      have hrest : set_ranges ranges rest = Except.ok rest :=
        ih (fun q hq => h q (List.mem_cons_of_mem _ hq))
      rw [set_ranges] at hrest
      rw [hp, hrest]
      rfl

/-- Helper: the Python float conversion of the token `"1.0"`. -/
theorem pyFloat_one : pyFloat "1.0" = some 1 := by
  have h : pyFloatParts "1.0" = some (false, 1, 0, 1) := by decide
  rw [pyFloat, h]
  norm_num

/-- Helper: the Python float conversion of the token `"-1.0"`. -/
theorem pyFloat_neg_one : pyFloat "-1.0" = some (-1) := by
  have h : pyFloatParts "-1.0" = some (true, 1, 0, 1) := by decide
  rw [pyFloat, h]
  norm_num

/-- C1 (amended): the closure-based `get_conductance` of
`reload_settings.py` returns `(X / G) / V_exc * 25818` with `V_exc` the
amplitude after voltage-divider correction, and `ConductanceBuffer.get`
returns the same formula applied element-wise to the buffered array (when
channel 1 displays `X`); `SR830_T3._get_conductance`, however, returns
`(R / G) / V_exc * 25812.5`, using the magnitude reading `R` rather than
the in-phase `X` and the resistance-quantum constant `25.8125e3` rather
than `25818`. -/
theorem C1_conductance_paths :
    (∀ (lockin : LockinState) (acf iv_conv : ℚ),
        get_conductance lockin ⟨lockin.amplitude, acf⟩ iv_conv
          = (lockin.X / iv_conv) / (lockin.amplitude / acf) * 25.818e3)
    ∧ (∀ s : SR830_T3, s.lockin.ch1_display = "X" →
        ConductanceBuffer.get s
          = Except.ok (s.lockin.ch1_databuffer.map
              (fun x => (x / s.ivgain) / s.amplitude_true * 25.818e3)))
    ∧ (∀ s : SR830_T3,
        s._get_conductance = (s.lockin.R / s.ivgain) / s.amplitude_true * 25.8125e3) := by
  refine ⟨?_, ?_, ?_⟩
  · intro lockin acf iv_conv
    simp [get_conductance, VoltageDivider.get]
  · intro s h
    simp [ConductanceBuffer.get, h]
  · intro s
    simp [SR830_T3._get_conductance]

/-- C1 witness: the buffer path evaluated on the concrete state `sX`. -/
theorem C1_conductance_paths_witness :
    sX.lockin.ch1_display = "X"
    ∧ ConductanceBuffer.get sX
        = Except.ok (sX.lockin.ch1_databuffer.map
            (fun x => (x / sX.ivgain) / sX.amplitude_true * 25.818e3)) :=
  ⟨rfl, C1_conductance_paths.2.1 sX rfl⟩

/-- C1 counterexample: on a state where every reading and gain is `1`,
`SR830_T3._get_conductance` returns `25812.5`, not the `(X / G) / V_exc *
25818 = 25818` the claim requires for every conductance path. -/
theorem C1_counterexample :
    SR830_T3._get_conductance sX
      ≠ (sX.lockin.X / sX.ivgain) / sX.amplitude_true * 25.818e3 := by
  norm_num [SR830_T3._get_conductance, SR830_T3.amplitude_true, sX, lockinX]

/-- C2: with channel 1 displaying `Y` (not the in-phase `X`), only
`ConductanceBuffer.get` raises; `SR830_T3._get_conductance` and the
closure-based `get_conductance` still return a derived conductance value,
so the display-mode precondition is enforced on one path only. -/
theorem C2_display_mode_unchecked :
    ConductanceBuffer.get sY
      = Except.error "Can not return conductance since X is not being measured on channel 1."
    ∧ SR830_T3._get_conductance sY = 25.8125e3
    ∧ get_conductance sY.lockin ⟨sY.lockin.amplitude, 1⟩ sY.ivgain = 25.818e3 := by
  refine ⟨?_, ?_, ?_⟩
  · simp [ConductanceBuffer.get, sY, lockinY]
  · norm_num [SR830_T3._get_conductance, SR830_T3.amplitude_true, sY, lockinY]
  · norm_num [get_conductance, VoltageDivider.get, sY, lockinY]

/-- C3 counterexample: on a state with in-phase reading `X = 1` and
magnitude reading `R = 2`, `SR830_T3._get_resistance` returns `1/2`, not
the `V_exc / (X / G) = 1` the claim states. -/
theorem C3_counterexample :
    SR830_T3._get_resistance sR2
      ≠ sR2.amplitude_true / (sR2.lockin.X / sR2.ivgain) := by
  norm_num [SR830_T3._get_resistance, SR830_T3.amplitude_true, sR2, lockinR2]

/-- C3 (amended): `SR830_T3._get_resistance` returns `V_exc / (R / G)`
with `R` the magnitude reading (not the in-phase `X`), computed directly
rather than as `1/g`; for nonzero reading, gain and excitation it is never
equal to `1 / _get_conductance`, their product being the resistance
quantum `25812.5` used by the conductance path. -/
theorem C3_resistance :
    (∀ s : SR830_T3,
        s._get_resistance = s.amplitude_true / (s.lockin.R / s.ivgain))
    ∧ (∀ s : SR830_T3, s.lockin.R ≠ 0 → s.ivgain ≠ 0 → s.amplitude_true ≠ 0 →
        s._get_resistance * s._get_conductance = 25.8125e3
        ∧ s._get_resistance ≠ 1 / s._get_conductance) := by
  constructor
  · intro s
    simp [SR830_T3._get_resistance]
  · intro s hR hG hV
    have hi : s.lockin.R / s.ivgain ≠ 0 := div_ne_zero hR hG
    have hprod : s._get_resistance * s._get_conductance = 25.8125e3 := by
      rw [SR830_T3._get_resistance, SR830_T3._get_conductance]
      field_simp
      ring
    refine ⟨hprod, ?_⟩
    intro heq
    have hcne : s._get_conductance ≠ 0 := by
      rw [SR830_T3._get_conductance]
      norm_num
      exact ⟨⟨hR, hG⟩, hV⟩
    rw [heq, one_div, inv_mul_cancel₀ hcne] at hprod
    norm_num at hprod

/-- C3 witness: the resistance/conductance relationship evaluated on the
concrete state `sR2`. -/
theorem C3_resistance_witness :
    sR2.lockin.R ≠ 0 ∧ sR2.ivgain ≠ 0 ∧ sR2.amplitude_true ≠ 0
    ∧ SR830_T3._get_resistance sR2 * SR830_T3._get_conductance sR2 = 25.8125e3
    ∧ SR830_T3._get_resistance sR2 ≠ 1 / SR830_T3._get_conductance sR2 := by
  have h1 : sR2.lockin.R ≠ 0 := by norm_num [sR2, lockinR2]
  have h2 : sR2.ivgain ≠ 0 := by norm_num [sR2]
  have h3 : sR2.amplitude_true ≠ 0 := by
    norm_num [SR830_T3.amplitude_true, sR2, lockinR2]
  have h := C3_resistance.2 sR2 h1 h2 h3
  exact ⟨h1, h2, h3, h.1, h.2⟩

/-- C4 counterexample: for `X = 1e-6`, `G = 1e7`, `V_exc = 1e-3` the
closure-based conductance is exactly `2.5818e-6`, which is not within
`1e-6` relative tolerance of the claimed `2.58e-3` (it is a factor of 1000
smaller). -/
theorem C4_counterexample :
    ¬ (|get_conductance lockin4 ⟨1e-3, 1⟩ 1e7 - 2.58e-3| ≤ 1e-6 * 2.58e-3)
    ∧ get_conductance lockin4 ⟨1e-3, 1⟩ 1e7 = 2.5818e-6 := by
  have hv : get_conductance lockin4 ⟨1e-3, 1⟩ 1e7 = 2.5818e-6 := by
    norm_num [get_conductance, VoltageDivider.get, lockin4]
  constructor
  · rw [hv, abs_of_neg (by norm_num : (2.5818e-6 : ℚ) - 2.58e-3 < 0)]
    norm_num
  · exact hv

/-- C4 (amended): for `X = 1e-6`, `G = 1e7`, `V_exc = 1e-3` the
closure-based conductance equals the formula `(1e-6/1e7)/1e-3 * 25818`
exactly, i.e. `2.5818e-6` (approximately `2.58e-6`, not `2.58e-3`), so it
matches the formula within `1e-6` relative tolerance. -/
theorem C4_example_value :
    get_conductance lockin4 ⟨1e-3, 1⟩ 1e7 = (1e-6 / 1e7) / 1e-3 * 25818
    ∧ |get_conductance lockin4 ⟨1e-3, 1⟩ 1e7 - 2.5818e-6| ≤ 1e-6 * 2.5818e-6 := by
  constructor
  · norm_num [get_conductance, VoltageDivider.get, lockin4]
  · norm_num [get_conductance, VoltageDivider.get, lockin4]

/-- C5: writing a string value with `ConfigFile.set` (which requires the
section to exist, else `ConfigParser` raises `KeyError`) and reading it
back with `ConfigFile.get` returns the same string, both before and after
a `reload()`, the backing file having been written through by `set`. -/
theorem C5_set_get_roundtrip (st : ConfigFile) (sec field value : String)
    (h : (st.cfg sec).isSome) :
    ∃ st', st.set sec field value = some st'
      ∧ st'.get sec field = some value
      ∧ (st'.reload).get sec field = some value := by
  cases hc : st.cfg sec with
  | none => rw [hc] at h; simp at h
  | some s =>
      refine ⟨{ cfg := fun ss => if ss = sec
                  then some (fun f => if f = field then some value else s f)
                  else st.cfg ss,
                file := fun ss => if ss = sec
                  then some (fun f => if f = field then some value else s f)
                  else st.cfg ss }, ?_, ?_, ?_⟩
      · simp [ConfigFile.set, hc]
      · simp [ConfigFile.get, configLookup]
      · simp [ConfigFile.reload, ConfigFile._load, ConfigFile.get,
              configLookup, mergeConfig, mergeSection]

/-- C5 witness: the round trip evaluated on the concrete store `st0`. -/
theorem C5_set_get_roundtrip_witness :
    (st0.cfg "A").isSome
    ∧ ∃ st', st0.set "A" "x" "1" = some st'
        ∧ st'.get "A" "x" = some "1"
        ∧ (st'.reload).get "A" "x" = some "1" :=
  ⟨rfl, C5_set_get_roundtrip st0 "A" "x" "1" rfl⟩

/-- C6 counterexample: with `A/x = 1` in memory and an empty backing file,
`reload()` keeps `A/x` readable, although it is absent from the file: the
underlying `ConfigParser.read` merges instead of replacing. -/
theorem C6_counterexample :
    configLookup emptyConfig "A" "x" = none
    ∧ (ConfigFile.reload { cfg := cfgA, file := emptyConfig }).get "A" "x" = some "1" := by
  constructor
  · rfl
  · rfl

/-- C6 (amended): `reload()` merges the backing file into the in-memory
mapping rather than replacing it: a field present in the file overwrites
the in-memory value, while a section or field absent from the file keeps
its in-memory value (in particular, when memory and file agree — the
situation maintained by `set`'s write-through — every `get` is unchanged). -/
theorem C6_reload_merges (st : ConfigFile) (sec field : String) :
    (st.reload).get sec field =
      match configLookup st.file sec field with
      | some v => some v
      | none => st.get sec field := by
  rw [ConfigFile.reload, ConfigFile._load, ConfigFile.get, ConfigFile.get]
  cases hf : st.file sec with
  | none =>
      cases hm : st.cfg sec with
      | none => simp [configLookup, mergeConfig, hf, hm]
      | some ms => simp [configLookup, mergeConfig, hf, hm]
  | some fs =>
      cases hm : st.cfg sec with
      | none =>
          simp only [configLookup, mergeConfig, hf, hm]
          cases fs field <;> rfl
      | some ms =>
          simp only [configLookup, mergeConfig, hf, hm, mergeSection]

/-- C7: in `set_ranges`, channels without a configured range are left
unchanged (the whole call is the identity when no channel has one); a
configured range string that does not split into exactly two
space-separated tokens makes the call raise; and a well-formed range
installs the `Numbers(min, max)` validator on the upstream `v1` of a
`VoltageDivider` channel and directly on a plain channel. -/
theorem C7_set_ranges :
    (∀ (ranges : String → Option String) (chans : List (String × QdacChannel)),
        (∀ p ∈ chans, ranges p.1 = none) →
        set_ranges ranges chans = Except.ok chans)
    ∧ (∀ (ranges : String → Option String) (chans : List (String × QdacChannel))
          (chan_id s : String) (ch : QdacChannel),
        (chan_id, ch) ∈ chans → ranges chan_id = some s →
        (pySplit s ' ').length ≠ 2 →
        ∃ msg, set_ranges ranges chans = Except.error msg)
    ∧ (∀ (ranges : String → Option String) (chan_id s mn mx : String)
          (qmin qmax : ℚ),
        ranges chan_id = some s → pySplit s ' ' = [mn, mx] →
        pyFloat mn = some qmin → pyFloat mx = some qmax →
        (∀ d : DividerChannel,
          setRangesChannel ranges chan_id (QdacChannel.divider d)
            = Except.ok (QdacChannel.divider
                { d with v1 := { d.v1 with validator := some ⟨qmin, qmax⟩ } }))
        ∧ (∀ p : PlainChannel,
          setRangesChannel ranges chan_id (QdacChannel.plain p)
            = Except.ok (QdacChannel.plain
                { p with validator := some ⟨qmin, qmax⟩ }))) := by
  refine ⟨?_, ?_, ?_⟩
  · intro ranges chans h
    exact set_ranges_noop h
  · intro ranges chans chan_id s ch hmem hr hl
    obtain ⟨msg, hmsg⟩ := setRangesChannel_malformed ch hr hl
    exact set_ranges_error_of_mem hmem hmsg
  · intro ranges chan_id s mn mx qmin qmax hr hsp hmn hmx
    constructor
    · intro d
      simp only [setRangesChannel, hr, hsp, hmn, hmx]
    · intro p
      simp only [setRangesChannel, hr, hsp, hmn, hmx]

/-- C7 witness: `set_ranges` evaluated on concrete dictionaries against
the concrete `Channel ranges` section `ranges0` (no entry for channel `7`,
malformed entry for channel `2`, well-formed entry for channel `3`). -/
theorem C7_set_ranges_witness :
    ((∀ p ∈ ([("7", plain0)] : List (String × QdacChannel)), ranges0 p.1 = none)
      ∧ set_ranges ranges0 [("7", plain0)] = Except.ok [("7", plain0)])
    ∧ (("2", plain0) ∈ ([("2", plain0)] : List (String × QdacChannel))
      ∧ ranges0 "2" = some "1.0"
      ∧ (pySplit "1.0" ' ').length ≠ 2
      ∧ ∃ msg, set_ranges ranges0 [("2", plain0)] = Except.error msg)
    ∧ (ranges0 "3" = some "-1.0 1.0"
      ∧ pySplit "-1.0 1.0" ' ' = ["-1.0", "1.0"]
      ∧ pyFloat "-1.0" = some (-1)
      ∧ pyFloat "1.0" = some 1
      ∧ setRangesChannel ranges0 "3" (QdacChannel.divider div0)
          = Except.ok (QdacChannel.divider
              { div0 with v1 := { div0.v1 with validator := some ⟨-1, 1⟩ } })
      ∧ setRangesChannel ranges0 "3" (QdacChannel.plain { validator := none })
          = Except.ok (QdacChannel.plain { validator := some ⟨-1, 1⟩ })) := by
  have hnone : ∀ p ∈ ([("7", plain0)] : List (String × QdacChannel)), ranges0 p.1 = none := by
    intro p hp
    rw [List.mem_singleton] at hp
    rw [hp]
    rfl
  have hmem : ("2", plain0) ∈ ([("2", plain0)] : List (String × QdacChannel)) :=
    List.mem_singleton.mpr rfl
  have hlen : (pySplit "1.0" ' ').length ≠ 2 := by decide
  have h3 := C7_set_ranges.2.2 ranges0 "3" "-1.0 1.0" "-1.0" "1.0" (-1) 1 rfl
    (by decide) pyFloat_neg_one pyFloat_one
  exact ⟨⟨hnone, C7_set_ranges.1 ranges0 [("7", plain0)] hnone⟩,
    ⟨hmem, rfl, hlen, C7_set_ranges.2.1 ranges0 [("2", plain0)] "2" "1.0" plain0 hmem rfl hlen⟩,
    ⟨rfl, by decide, pyFloat_neg_one, pyFloat_one, h3.1 div0, h3.2 { validator := none }⟩⟩

/-- C8: `Decadac_T3.get_cutters` with readings differing by more than
`0.05` prints the warning message and returns `None` (no exception);
with readings within `0.05` it returns the left cutter voltage. -/
theorem C8_get_cutters (vleft vright : ℚ) :
    (|vleft - vright| > 0.05 →
      Decadac_T3.get_cutters vleft vright
        = (none, ["Error! Left and right cutter are not the same!"]))
    ∧ (|vleft - vright| ≤ 0.05 →
      Decadac_T3.get_cutters vleft vright = (some vleft, [])) := by
  constructor
  · intro h
    rw [Decadac_T3.get_cutters, if_pos h]
  · intro h
    rw [Decadac_T3.get_cutters, if_neg (not_lt.mpr h)]

/-- C8 witness: the cutter read evaluated at the concrete pairs `(0, 1)`
(mismatched) and `(1, 1)` (matched). -/
theorem C8_get_cutters_witness :
    (|(0 : ℚ) - 1| > 0.05
      ∧ Decadac_T3.get_cutters 0 1
          = (none, ["Error! Left and right cutter are not the same!"]))
    ∧ (|(1 : ℚ) - 1| ≤ 0.05
      ∧ Decadac_T3.get_cutters 1 1 = (some 1, [])) :=
  ⟨⟨by norm_num, (C8_get_cutters 0 1).1 (by norm_num)⟩,
   ⟨by norm_num, (C8_get_cutters 1 1).2 (by norm_num)⟩⟩

/-- C9: `check_unused_qdac_channels` inspects exactly the channels of
`1..47` (both boundaries included, `0` and `48` excluded) not in the used
set, and warns exactly for an inspected channel whose latest voltage is
strictly positive. -/
theorem C9_unused_channel_check :
    (∀ (used : List ℕ) (ch : ℕ),
        ch ∈ inspected_channels used ↔ (1 ≤ ch ∧ ch ≤ 47) ∧ ch ∉ used)
    ∧ (∀ (used : List ℕ) (get_latest : ℕ → ℚ) (ch : ℕ),
        ch ∈ check_unused_qdac_channels used get_latest ↔
          ((1 ≤ ch ∧ ch ≤ 47) ∧ ch ∉ used) ∧ get_latest ch > 0)
    ∧ (1 ∈ inspected_channels [] ∧ 47 ∈ inspected_channels []
        ∧ 0 ∉ inspected_channels [] ∧ 48 ∉ inspected_channels []) := by
  have h1 : ∀ (used : List ℕ) (ch : ℕ),
      ch ∈ inspected_channels used ↔ (1 ≤ ch ∧ ch ≤ 47) ∧ ch ∉ used := by
    intro used ch
    rw [inspected_channels, List.mem_filter, List.mem_range'_1]
    simp [Nat.lt_succ_iff]
  refine ⟨h1, ?_, ?_⟩
  · intro used get_latest ch
    rw [check_unused_qdac_channels, List.mem_filter, h1]
    simp
  · refine ⟨?_, ?_, ?_, ?_⟩ <;> decide

/-- C10: after `SR830_T3.__init__` the `acfactor` property equals the
divider's `division_value` (both `1`), the `acfactor` setter preserves
this invariant by updating both fields together, and subsequent
`amplitude_true` gets and sets use the newly assigned ratio. -/
theorem C10_acfactor_invariant :
    (∀ (lockin : LockinState) (ivgain : ℚ),
        (SR830_T3.init lockin ivgain).acfactor
          = (SR830_T3.init lockin ivgain).amplitude_true_division)
    ∧ (∀ (s : SR830_T3) (v : ℚ),
        (s.acfactor_set v).acfactor = (s.acfactor_set v).amplitude_true_division
        ∧ (s.acfactor_set v).amplitude_true = s.lockin.amplitude / v
        ∧ ∀ w : ℚ,
            ((s.acfactor_set v).amplitude_true_set w).lockin.amplitude = w * v) := by
  refine ⟨?_, ?_⟩
  · intro lockin ivgain
    rfl
  · intro s v
    refine ⟨rfl, rfl, ?_⟩
    intro w
    rfl

end Majorana
